import Mathlib

/-!
Shallow embedding of the Wazuh server supervisor script
(framework/scripts/wazuh_server.py) and proofs about its
lifecycle-orchestration behaviour: daemon launch and short-circuit,
worker reconnect loop, ordered shutdown with unbounded wait, the
top-level start/stop/status entry points and their exit codes.

External effects (subprocess spawning, OS signals, the pid-record
store, the configuration-socket probe) are modelled as explicit
environment parameters; unbounded while-loops are modelled with a
fuel parameter whose exhaustion denotes "still inside the loop".
-/

namespace WazuhServer

/-- The four daemon names handled by the script: SERVER_DAEMON_NAME,
ENGINE_DAEMON_NAME, COMMS_API_DAEMON_NAME, MANAGEMENT_API_DAEMON_NAME. -/
inductive DaemonName
  | server
  | engine
  | commsApi
  | managementApi
deriving DecidableEq, Repr

/-- String form of each daemon name constant from the script. -/
def dname : DaemonName → String
  | .server => "wazuh-server"
  | .engine => "wazuh-engined"
  | .commsApi => "wazuh-comms-apid"
  | .managementApi => "wazuh-apid"

/-- Command-line tokens for the launch commands built in start_daemons.
The executable paths come from external constants (WAZUH_SHARE and
friends), so they are kept symbolic. -/
inductive ArgToken
  | enginePath
  | embeddedPython
  | commsScript
  | managementScript
  | lit (s : String)
deriving DecidableEq, Repr

/-- What the operating system does with one subprocess launch: Popen
raises, or the process exits within the 2-second grace window with a
return code, or p.wait hits the 2-second timeout (still running). -/
inductive LaunchBehavior
  | spawnError (msg : String)
  | exitsWithin (returncode : Int)
  | stillRunning
deriving DecidableEq, Repr

/-- The WazuhDaemonError raised by start_daemon: the message is
"Error starting " ++ dname daemon ++ ": " ++ detail. -/
structure WazuhDaemonError where
  daemon : DaemonName
  detail : String
deriving DecidableEq, Repr

/-- Rendered message of a WazuhDaemonError, as the f-string in the code
builds it. -/
def WazuhDaemonError.message (e : WazuhDaemonError) : String :=
  "Error starting " ++ dname e.daemon ++ ": " ++ e.detail

/-- Observable result of a successful start_daemon call: the log lines
written and the pid record created (if any). -/
structure StartDaemonResult where
  logs : List String
  pid_written : Option (DaemonName × Nat)
deriving DecidableEq, Repr

/-- Embedding of start_daemon (wazuh_server.py lines 68-94).
`beh` is what the spawned subprocess does, `pid` the pid the OS would
assign.  Logs "Starting name"; on TimeoutExpired (still running after
the 2-second window) creates a pid record for the engine only and logs
"Started name (pid: p)"; on a non-zero exit within the window, or a
spawn failure, raises WazuhDaemonError. -/
def start_daemon (name : DaemonName) (beh : LaunchBehavior) (pid : Nat) :
    Except WazuhDaemonError StartDaemonResult :=
  match beh with
  | .spawnError m => .error ⟨name, m⟩
  | .exitsWithin rc =>
      if rc ≠ 0 then
        .error ⟨name, "return code " ++ toString rc⟩
      else
        .ok ⟨["Starting " ++ dname name], none⟩
  | .stillRunning =>
      .ok ⟨["Starting " ++ dname name,
            "Started " ++ dname name ++ " (pid: " ++ toString pid ++ ")"],
           if name = DaemonName.engine then some (DaemonName.engine, pid) else none⟩

/-- The engine_log_level mapping in start_daemons; any other debug mode
raises KeyError (modelled as none). -/
def engine_log_level (debug_mode : Nat) : Option String :=
  match debug_mode with
  | 0 => some "info"
  | 1 => some "debug"
  | 2 => some "trace"
  | _ => none

/-- The daemons dict built by start_daemons (lines 107-113), in its
insertion order: engine, communications API, management API. -/
def daemons_list (root : Bool) (lvl : String) : List (DaemonName × List ArgToken) :=
  [(DaemonName.engine,
      [ArgToken.enginePath, ArgToken.lit "server", ArgToken.lit "-l",
       ArgToken.lit lvl, ArgToken.lit "start"]),
   (DaemonName.commsApi,
      [ArgToken.embeddedPython, ArgToken.commsScript]
        ++ (if root then [ArgToken.lit "-r"] else [])),
   (DaemonName.managementApi,
      [ArgToken.embeddedPython, ArgToken.managementScript]
        ++ (if root then [ArgToken.lit "-r"] else []))]

/-- The for-loop body of start_daemons over the daemons dict: invokes
start_daemon on each entry in order, stopping at the first raised
WazuhDaemonError.  Returns the daemons actually attempted (in call
order) and the propagated error, if any. -/
def run_launches (beh : DaemonName → LaunchBehavior) (pids : DaemonName → Nat) :
    List (DaemonName × List ArgToken) → List DaemonName × Option WazuhDaemonError
  | [] => ([], none)
  | (n, _) :: rest =>
      match start_daemon n (beh n) (pids n) with
      | .error e => ([n], some e)
      | .ok _ =>
          let r := run_launches beh pids rest
          (n :: r.1, r.2)

/-- Result of start_daemons: either the engine_log_level lookup raised
KeyError before any launch, or the loop ran, attempting `called` daemons
in order and propagating `err` if a launch failed. -/
inductive StartDaemonsResult
  | keyError
  | ran (called : List DaemonName) (err : Option WazuhDaemonError)
deriving DecidableEq, Repr

/-- Embedding of start_daemons (lines 97-116): builds the daemons dict
(with the engine log level looked up from the debug mode, a KeyError on
an out-of-range mode) and launches each, short-circuiting on failure. -/
def start_daemons (debug_mode : Nat) (root : Bool)
    (beh : DaemonName → LaunchBehavior) (pids : DaemonName → Nat) :
    StartDaemonsResult :=
  match engine_log_level debug_mode with
  | none => .keyError
  | some lvl =>
      let r := run_launches beh pids (daemons_list root lvl)
      .ran r.1 r.2

/-- Whether start_daemon on this daemon would raise. -/
def launch_fails (beh : DaemonName → LaunchBehavior) (pids : DaemonName → Nat)
    (n : DaemonName) : Bool :=
  match start_daemon n (beh n) (pids n) with
  | .error _ => true
  | .ok _ => false

/-! ### Worker main (lines 215-292)

worker_main first polls the configuration socket until it answers,
then enters `while True`: it constructs a fresh Worker and
LocalServerWorker, creates their tasks, runs start_daemons once
(guarded by the daemons_initialized flag), and awaits both tasks;
asyncio.CancelledError from the await makes it log a reconnect notice,
sleep the configured retry interval and loop again, while any other
exception propagates out of the loop. -/

/-- Observable events of a worker_main run. `sleepRetry` carries the
configured connection_retry interval in seconds. -/
inductive WEvent
  | probeAttempt
  | probeRetryLog
  | sleepProbe
  | construct (i : Nat)
  | startDaemonsCall
  | awaitGather (i : Nat)
  | reconnectLog
  | sleepRetry (secs : Nat)
deriving DecidableEq, Repr

/-- What `await asyncio.gather(*tasks)` does on one loop iteration:
returns, is interrupted by asyncio.CancelledError (connection loss), or
raises some other exception. -/
inductive GatherOutcome
  | done
  | cancelled
  | fatal (msg : String)
deriving DecidableEq, Repr

/-- The readiness-probe loop (lines 235-237): ping the configuration
socket; while it does not answer, log a retry warning and sleep one
second.  `pings k` is the answer of the k-th ping; fuel bounds the
number of attempts modelled, with `false` meaning the loop is still
polling. -/
def ping_loop : Nat → (Nat → Bool) → Nat → List WEvent × Bool
  | 0, _, _ => ([], false)
  | fuel + 1, pings, k =>
      if pings k then ([.probeAttempt], true)
      else
        let r := ping_loop fuel pings (k + 1)
        (.probeAttempt :: .probeRetryLog :: .sleepProbe :: r.1, r.2)

/-- The `while True` retry loop of worker_main (lines 256-292).
`env i` is what awaiting the gathered tasks does on iteration i; `sd i`
is the outcome of the start_daemons call if it is made on iteration i
(some msg = it raises).  `daemons_initialized` is the flag preventing
re-launching.  Returns the event trace and the exception propagated out
of the loop, if any; fuel exhaustion (result `none` with no further
events) means the loop is still running. -/
def worker_loop : Nat → Nat → Bool → (Nat → GatherOutcome) →
    (Nat → Option String) → Nat → List WEvent × Option String
  | 0, _, _, _, _, _ => ([], none)
  | fuel + 1, i, daemons_initialized, env, sd, retry =>
      if daemons_initialized then
        match env i with
        | .done =>
            let r := worker_loop fuel (i + 1) true env sd retry
            ([.construct i, .awaitGather i] ++ r.1, r.2)
        | .cancelled =>
            let r := worker_loop fuel (i + 1) true env sd retry
            ([.construct i, .awaitGather i, .reconnectLog, .sleepRetry retry] ++ r.1, r.2)
        | .fatal m => ([.construct i, .awaitGather i], some m)
      else
        match sd i with
        | some e => ([.construct i, .startDaemonsCall], some e)
        | none =>
            match env i with
            | .done =>
                let r := worker_loop fuel (i + 1) true env sd retry
                ([.construct i, .startDaemonsCall, .awaitGather i] ++ r.1, r.2)
            | .cancelled =>
                let r := worker_loop fuel (i + 1) true env sd retry
                ([.construct i, .startDaemonsCall, .awaitGather i,
                  .reconnectLog, .sleepRetry retry] ++ r.1, r.2)
            | .fatal m => ([.construct i, .startDaemonsCall, .awaitGather i], some m)

/-- Embedding of worker_main (lines 215-292): readiness probe first,
then the retry loop with daemons_initialized = False. -/
def worker_main (pingFuel loopFuel : Nat) (pings : Nat → Bool)
    (env : Nat → GatherOutcome) (sd : Nat → Option String) (retry : Nat) :
    List WEvent × Option String :=
  let p := ping_loop pingFuel pings 0
  if p.2 then
    let r := worker_loop loopFuel 0 false env sd retry
    (p.1 ++ r.1, r.2)
  else (p.1, none)

/-- Occurrence count of one worker event in a trace. -/
def countW (e : WEvent) : List WEvent → Nat
  | [] => 0
  | x :: t => (if x = e then 1 else 0) + countW e t

/-! ### Shutdown (lines 119-154)

shutdown_daemon looks up the recorded pid of the daemon and, if present,
logs and sends SIGTERM to it, deleting the pid record for the engine.
shutdown_server signals the three daemons in the fixed list order
engine, management API, communications API, then sleeps in one-second
steps while check_for_daemons_shutdown still reports a live daemon,
and only then reaps the child processes of the server and deletes the
pid record of the server itself.

`records` is the pid-record store (get_parent_pid); `alive p` says
whether pid p still exists, so os.kill to a dead pid raises
ProcessLookupError; `check k` is the answer of the k-th
check_for_daemons_shutdown poll. -/

/-- Observable events of shutdown_server / stop / status. -/
inductive SEvent
  | logShuttingDown (d : DaemonName) (pid : Nat)
  | killSignal (d : DaemonName) (pid : Nat)
  | deletePidRecord (d : DaemonName) (pid : Nat)
  | waitingLog
  | sleepPoll
  | reapChildren (pid : Nat)
  | deleteServerRecord (pid : Nat)
  | logNotRunning
deriving DecidableEq, Repr

/-- os.kill with SIGTERM: raises ProcessLookupError when the target
process no longer exists. -/
def os_kill (alive : Nat → Bool) (pid : Nat) : Except String Unit :=
  if alive pid then .ok () else .error "ProcessLookupError"

/-- Embedding of shutdown_daemon (lines 119-133). Returns the events
emitted and the exception propagated (from os.kill), if any. -/
def shutdown_daemon (records : DaemonName → Option Nat) (alive : Nat → Bool)
    (name : DaemonName) : List SEvent × Option String :=
  match records name with
  | none => ([], none)
  | some ppid =>
      match os_kill alive ppid with
      | .error e => ([.logShuttingDown name ppid], some e)
      | .ok _ =>
          ([.logShuttingDown name ppid, .killSignal name ppid]
            ++ (if name = DaemonName.engine then [.deletePidRecord name ppid] else []),
           none)

/-- The daemons list of shutdown_server (line 144), in its fixed order. -/
def shutdown_order : List DaemonName :=
  [DaemonName.engine, DaemonName.managementApi, DaemonName.commsApi]

/-- The for-loop of shutdown_server over its daemons list, stopping at
the first exception raised by shutdown_daemon. -/
def signal_daemons (records : DaemonName → Option Nat) (alive : Nat → Bool) :
    List DaemonName → List SEvent × Option String
  | [] => ([], none)
  | d :: rest =>
      match shutdown_daemon records alive d with
      | (evs, some e) => (evs, some e)
      | (evs, none) =>
          let r := signal_daemons records alive rest
          (evs ++ r.1, r.2)

/-- The `while check_for_daemons_shutdown(daemons): time.sleep(1)` loop:
returns the index of the first poll reporting every daemon gone, or none
if the loop is still running when the fuel runs out. -/
def shutdown_wait : Nat → (Nat → Bool) → Nat → Option Nat
  | 0, _, _ => none
  | fuel + 1, check, k => if check k then shutdown_wait fuel check (k + 1) else some k

/-- How a shutdown_server call ended: returned normally, raised an
exception, or is still inside the wait loop (fuel exhausted). -/
inductive ShutdownResult
  | returned
  | raised (e : String)
  | looping
deriving DecidableEq, Repr

/-- Embedding of shutdown_server (lines 136-154): signal the daemons in
the fixed order, wait until check_for_daemons_shutdown turns false, then
delete the child pids (reap) and the pid record of the server itself. -/
def shutdown_server (fuel : Nat) (records : DaemonName → Option Nat)
    (alive : Nat → Bool) (check : Nat → Bool) (server_pid : Nat) :
    List SEvent × ShutdownResult :=
  match signal_daemons records alive shutdown_order with
  | (evs, some e) => (evs, .raised e)
  | (evs, none) =>
      match shutdown_wait fuel check 0 with
      | none => (evs ++ [.waitingLog] ++ List.replicate fuel .sleepPoll, .looping)
      | some n =>
          (evs ++ [.waitingLog] ++ List.replicate n .sleepPoll
             ++ [.reapChildren server_pid, .deleteServerRecord server_pid],
           .returned)

/-- Daemons signalled in a shutdown trace, in signal order. -/
def signaled : List SEvent → List DaemonName
  | [] => []
  | .killSignal d _ :: t => d :: signaled t
  | _ :: t => signaled t

/-- Occurrence count of one shutdown event in a trace. -/
def countS (e : SEvent) : List SEvent → Nat
  | [] => 0
  | x :: t => (if x = e then 1 else 0) + countS e t

/-! ### Top-level entry points: start (lines 337-397), stop (399-408),
status (411-421)

start() enforces single instance, loads the configuration, runs a
series of preparation steps, writes its own pid record, optionally
generates the JWT key pair (master only), then runs the role main
inside try/except/finally whose finally clause calls shutdown_server.
The process exit code is 0 when args.func() returns normally, the
argument of sys.exit otherwise, and 1 when an exception escapes the
script (the Python interpreter behaviour on an uncaught exception). -/

/-- What pyDaemonModule.get_wazuh_server_pid does: raises StopIteration
(no pid record found) or returns a pid. -/
inductive GetPidResult
  | stopIteration
  | found (pid : Nat)
deriving DecidableEq, Repr

/-- NodeType from the server configuration. -/
inductive NodeType
  | master
  | worker
deriving DecidableEq, Repr

/-- How `loop.run_until_complete(main_function(...))` ends: returns,
or raises one of the exception classes handled at lines 387-394, or
raises something that is not caught there (not an Exception subclass,
e.g. a stray SystemExit or CancelledError), which escapes start() after
the finally clause. -/
inductive RunOutcome
  | normal
  | keyboardInterrupt
  | memoryError
  | daemonError (msg : String)
  | unhandled (msg : String)
  | baseEscape (msg : String)
deriving DecidableEq, Repr

/-- Environment of one start() invocation: the pid-record lookup, the
configuration load (giving the node type on success), an exception
raised by any of the preparation statements between the configuration
load and the try block (clean_up, create_wazuh_dir, clean_pid_files,
the privilege drop, create_pid, keypair generation), whether the JWT
key pair already exists, the pid of the server itself, the run outcome,
and the world seen by the shutdown_server call of the finally clause:
the pid-record store at shutdown time (clean_pid_files at line 360
removes only server pid files, so stale daemon records can survive to
this point), the process table, the check_for_daemons_shutdown polls
and the fuel bounding the modelled wait. -/
structure StartEnv where
  pid_lookup : GetPidResult
  config : Except String NodeType
  midphase : Option String
  keypairExists : Bool
  self_pid : Nat
  run : RunOutcome
  records : DaemonName → Option Nat
  alive : Nat → Bool
  check : Nat → Bool
  sfuel : Nat

/-- Observable events of a start() invocation.  `shutdownServerCall`
marks the invocation made by the finally clause; the events of that
shutdown_server run itself follow it, embedded via `shutdownEvent`. -/
inductive TEvent
  | printAlreadyRunning (pid : Nat)
  | logConfigError (msg : String)
  | createServerPid (pid : Nat)
  | logStartingServer (pid : Nat)
  | logGenKeypair
  | runPhase
  | logInterrupt
  | logMemoryError
  | logDaemonError (msg : String)
  | logUnhandled (msg : String)
  | shutdownServerCall (pid : Nat)
  | shutdownEvent (e : SEvent)
deriving DecidableEq, Repr

/-- How the whole process ends: sys.exit / normal completion with a
code, or an exception escaping the script (which the interpreter turns
into exit code 1). -/
inductive ExitResult
  | exited (code : Nat)
  | uncaught (msg : String)
deriving DecidableEq, Repr

/-- Process exit code of an ExitResult: an uncaught exception makes the
interpreter exit with code 1. -/
def exitCode : ExitResult → Nat
  | .exited c => c
  | .uncaught _ => 1

/-- Log lines of the exception handlers at lines 387-394. -/
def run_phase_events : RunOutcome → List TEvent
  | .normal => []
  | .keyboardInterrupt => [.logInterrupt]
  | .memoryError => [.logMemoryError]
  | .daemonError m => [.logDaemonError m]
  | .unhandled m => [.logUnhandled m]
  | .baseEscape _ => []

/-- start() after the single-instance check passed: configuration load,
preparation statements, pid record and start log, key-pair generation
for a master node, then the try/except/finally whose finally clause
always calls shutdown_server — the real shutdown_server of this file,
run against the record store and process table of the environment.  If
that call raises (e.g. ProcessLookupError from a SIGTERM to a recorded
but dead pid), the exception escapes start(), replacing any in-flight
exception; if its wait loop never ends, start() never returns (result
none); only when it returns does start() finish, propagating a
base-escape exception from the run phase or completing with exit 0. -/
def start_after_check (env : StartEnv) : List TEvent × Option ExitResult :=
  match env.config with
  | .error e => ([.logConfigError e], some (.exited 1))
  | .ok role =>
      match env.midphase with
      | some m => ([], some (.uncaught m))
      | none =>
          let keyEvs : List TEvent :=
            if role = NodeType.master then
              if env.keypairExists then [] else [.logGenKeypair]
            else []
          let sres :=
            shutdown_server env.sfuel env.records env.alive env.check env.self_pid
          ([.createServerPid env.self_pid, .logStartingServer env.self_pid]
             ++ keyEvs ++ [.runPhase] ++ run_phase_events env.run
             ++ [.shutdownServerCall env.self_pid]
             ++ sres.1.map TEvent.shutdownEvent,
           match sres.2 with
           | .raised e => some (.uncaught e)
           | .looping => none
           | .returned =>
               match env.run with
               | .baseEscape m => some (.uncaught m)
               | _ => some (.exited 0))

/-- Embedding of start() (lines 337-397): the single-instance check of
lines 339-345 (exit 1 when a recorded server pid is truthy), then the
rest of start().  The result is none when start() never returns
(the shutdown wait loop of the finally clause still polling). -/
def start_model (env : StartEnv) : List TEvent × Option ExitResult :=
  match env.pid_lookup with
  | .found p =>
      if p ≠ 0 then ([.printAlreadyRunning p], some (.exited 1))
      else start_after_check env
  | .stopIteration => start_after_check env

/-- Embedding of stop() (lines 399-408): look up the server pid record;
if absent, warn and exit 0; otherwise run shutdown_server and send
SIGTERM to the recorded server pid.  The result is `none` while
shutdown_server is still in its wait loop. -/
def stop_model (lookup : GetPidResult) (records : DaemonName → Option Nat)
    (alive : Nat → Bool) (check : Nat → Bool) (fuel : Nat) :
    List SEvent × Option ExitResult :=
  match lookup with
  | .stopIteration => ([.logNotRunning], some (.exited 0))
  | .found server_pid =>
      match shutdown_server fuel records alive check server_pid with
      | (evs, .raised e) => (evs, some (.uncaught e))
      | (evs, .looping) => (evs, none)
      | (evs, .returned) =>
          match os_kill alive server_pid with
          | .error e => (evs, some (.uncaught e))
          | .ok _ =>
              (evs ++ [.killSignal DaemonName.server server_pid], some (.exited 0))

/-- The daemons list of status() (line 413), in its print order. -/
def status_order : List DaemonName :=
  [DaemonName.server, DaemonName.commsApi, DaemonName.managementApi, DaemonName.engine]

/-- Embedding of status() (lines 411-421): one line per daemon, reading
the set of currently running process names. -/
def status_model (running : DaemonName → Bool) : List String :=
  status_order.map fun d =>
    dname d ++ " is " ++ (if running d then "running" else "not running") ++ "..."

/-- Occurrence count of one start() event in a trace. -/
def countT (e : TEvent) : List TEvent → Nat
  | [] => 0
  | x :: t => (if x = e then 1 else 0) + countT e t

/-- start() reaches the run phase (the try block) exactly when the
single-instance check passes, the configuration loads, and none of the
preparation statements raises. -/
def reaches_run_phase (env : StartEnv) : Prop :=
  (match env.pid_lookup with
   | .found p => p = 0
   | .stopIteration => True)
  ∧ (∃ role, env.config = .ok role)
  ∧ env.midphase = none

/-- start() found a pid record whose recorded pid is truthy: the
single-instance check fails. -/
def already_running (env : StartEnv) : Prop :=
  ∃ p, env.pid_lookup = .found p ∧ p ≠ 0

/-- CentralizedConfig.get_server_config raised. -/
def config_load_fails (env : StartEnv) : Prop :=
  ∃ e, env.config = .error e

/-- An exception escapes start() uncaught: either one of the
preparation statements outside the try block raised, or the run phase
raised something no except clause matches. -/
def unhandled_startup_error (env : StartEnv) : Prop :=
  env.midphase ≠ none ∨ ∃ m, env.run = .baseEscape m

/-- The shutdown_server call of the finally clause raises in this
environment (e.g. a stale daemon record survived to shutdown time and
the SIGTERM to its dead pid raises ProcessLookupError); nothing in
start() catches it, so it escapes and the interpreter exits 1. -/
def shutdown_in_finally_raises (env : StartEnv) : Prop :=
  ∃ e, (shutdown_server env.sfuel env.records env.alive env.check env.self_pid).2
        = .raised e

/-! ### Concrete environments used to evaluate the model -/

/-- Launch behaviour where the communications API exits immediately
with return code 1 and the other daemons keep running. -/
def behComms1 : DaemonName → LaunchBehavior := fun n =>
  match n with
  | DaemonName.commsApi => LaunchBehavior.exitsWithin 1
  | _ => LaunchBehavior.stillRunning

/-- Every subprocess gets pid 7. -/
def pids7 : DaemonName → Nat := fun _ => 7

/-- Configuration socket that answers on the first ping. -/
def pingsTrue : Nat → Bool := fun _ => true

/-- Worker run where the first connection is lost (CancelledError) and
the second attempt fails with a non-cancellation error. -/
def envCancelThenFatal : Nat → GatherOutcome := fun i =>
  if i = 0 then GatherOutcome.cancelled else GatherOutcome.fatal "network error"

/-- start_daemons succeeds whenever called. -/
def sdNone : Nat → Option String := fun _ => none

/-- Record store holding a single record: the engine at pid 4. -/
def recordsEngine4 : DaemonName → Option Nat := fun d =>
  if d = DaemonName.engine then some 4 else none

/-- Record store with no records at all. -/
def recordsNone : DaemonName → Option Nat := fun _ => none

/-- Process table where only pid 4 exists. -/
def alive4 : Nat → Bool := fun p => p = 4

/-- Process table where no process exists. -/
def aliveFalse : Nat → Bool := fun _ => false

/-- check_for_daemons_shutdown reports daemons still present on the
first two polls and gone from the third poll on. -/
def check2 : Nat → Bool := fun k => k < 2

/-- check_for_daemons_shutdown reports every daemon gone immediately. -/
def checkFalse : Nat → Bool := fun _ => false

/-- check_for_daemons_shutdown reports a live daemon on every poll. -/
def checkTrue : Nat → Bool := fun _ => true

/-- A signaled-events helper fact target: no process reported. -/
def runningNone : DaemonName → Bool := fun _ => false

/-- A start() environment that reaches the run phase (worker node, no
preparation failure), whose run raises an unhandled exception, and
whose finally-clause shutdown finds no records and no live daemons. -/
def envRun5 : StartEnv :=
  ⟨GetPidResult.stopIteration, Except.ok NodeType.worker, none, true, 5,
   RunOutcome.unhandled "boom", recordsNone, aliveFalse, checkFalse, 1⟩

/-- A start() environment that reaches the run phase, is interrupted by
the operator, and whose finally-clause shutdown finds a stale engine
record (pid 4, already dead) — so the shutdown itself raises. -/
def envShutdownRaise : StartEnv :=
  ⟨GetPidResult.stopIteration, Except.ok NodeType.worker, none, true, 5,
   RunOutcome.keyboardInterrupt, recordsEngine4, aliveFalse, checkFalse, 1⟩

/-! ### Shared helper lemmas -/

/-- An error raised by start_daemon names the daemon it was launching. -/
theorem start_daemon_error_name (n : DaemonName) (b : LaunchBehavior) (p : Nat)
    (e : WazuhDaemonError) (h : start_daemon n b p = .error e) : e.daemon = n := by
  cases b with
  | spawnError m =>
      simp only [start_daemon, Except.error.injEq] at h
      rw [← h]
  | exitsWithin rc =>
      by_cases hrc : rc = 0
      · simp [start_daemon, hrc] at h
      · simp only [start_daemon, if_pos hrc, Except.error.injEq] at h
        rw [← h]
  | stillRunning => simp [start_daemon] at h

/-- launch_fails is exactly the existence of a raised error. -/
theorem launch_fails_iff (beh : DaemonName → LaunchBehavior)
    (pids : DaemonName → Nat) (n : DaemonName) :
    launch_fails beh pids n = true ↔
      ∃ e, start_daemon n (beh n) (pids n) = .error e := by
  unfold launch_fails
  cases hs : start_daemon n (beh n) (pids n) with
  | error e => simp [hs]
  | ok r => simp [hs]

/-- countW distributes over list append. -/
theorem countW_append (e : WEvent) (a b : List WEvent) :
    countW e (a ++ b) = countW e a + countW e b := by
  induction a with
  | nil => simp [countW]
  | cons x t ih => simp [countW, ih]; omega

/-- countS distributes over list append. -/
theorem countS_append (e : SEvent) (a b : List SEvent) :
    countS e (a ++ b) = countS e a + countS e b := by
  induction a with
  | nil => simp [countS]
  | cons x t ih => simp [countS, ih]; omega

/-- countT distributes over list append. -/
theorem countT_append (e : TEvent) (a b : List TEvent) :
    countT e (a ++ b) = countT e a + countT e b := by
  induction a with
  | nil => simp [countT]
  | cons x t ih => simp [countT, ih]; omega

/-- The embedded events of a shutdown_server run contain no further
shutdown_server invocation marker. -/
theorem countT_shutdown_call_map (p : Nat) (l : List SEvent) :
    countT (.shutdownServerCall p) (l.map TEvent.shutdownEvent) = 0 := by
  induction l with
  | nil => rfl
  | cons x t ih => simp [countT, ih]

/-- signaled distributes over list append. -/
theorem signaled_append (a b : List SEvent) :
    signaled (a ++ b) = signaled a ++ signaled b := by
  induction a with
  | nil => rfl
  | cons x t ih => cases x <;> simp [signaled, ih]

/-- A successful shutdown_wait finds the first poll index at which
check_for_daemons_shutdown reports every daemon gone. -/
theorem shutdown_wait_spec (fuel : Nat) (check : Nat → Bool) (k n : Nat)
    (h : shutdown_wait fuel check k = some n) :
    k ≤ n ∧ check n = false ∧ ∀ j, k ≤ j → j < n → check j = true := by
  induction fuel generalizing k with
  | zero => simp [shutdown_wait] at h
  | succ f ih =>
      unfold shutdown_wait at h
      by_cases hc : check k
      · rw [if_pos hc] at h
        obtain ⟨h1, h2, h3⟩ := ih (k + 1) h
        refine ⟨by omega, h2, fun j hj hjn => ?_⟩
        rcases Nat.eq_or_lt_of_le hj with rfl | hlt
        · exact hc
        · exact h3 j hlt hjn
      · rw [if_neg hc] at h
        injection h with h
        subst h
        exact ⟨le_refl k, by simpa using hc, fun j hj hjn => by omega⟩

/-- While every poll keeps reporting a live daemon, shutdown_wait does
not produce an index. -/
theorem shutdown_wait_none (fuel : Nat) (check : Nat → Bool) (k : Nat)
    (h : ∀ j, k ≤ j → j < k + fuel → check j = true) :
    shutdown_wait fuel check k = none := by
  induction fuel generalizing k with
  | zero => rfl
  | succ f ih =>
      unfold shutdown_wait
      rw [if_pos (h k (le_refl k) (by omega))]
      exact ih (k + 1) (fun j hj hjf => h j (by omega) (by omega))

/-- When every recorded pid is still alive, the shutdown signalling loop
raises nothing and signals exactly the recorded daemons in list order. -/
theorem signal_daemons_all_alive (records : DaemonName → Option Nat)
    (alive : Nat → Bool) (l : List DaemonName)
    (h : ∀ d p, records d = some p → alive p = true) :
    (signal_daemons records alive l).2 = none
    ∧ signaled (signal_daemons records alive l).1
        = l.filter (fun d => (records d).isSome) := by
  induction l with
  | nil => simp [signal_daemons, signaled]
  | cons d rest ih =>
      cases hr : records d with
      | none =>
          simp [signal_daemons, shutdown_daemon, hr, ih, List.filter]
      | some p =>
          have ha : alive p = true := h d p hr
          by_cases hd : d = DaemonName.engine
          · subst hd
            simp [signal_daemons, shutdown_daemon, hr, os_kill, ha,
              signaled_append, signaled, ih, List.filter]
          · simp [signal_daemons, shutdown_daemon, hr, os_kill, ha, hd,
              signaled_append, signaled, ih, List.filter]

/-- Exit-code classification of start() once the single-instance check
has passed: a returned exit result has code 1 exactly when the
configuration load failed, an unhandled startup error escaped, or the
finally-clause shutdown_server itself raised. -/
theorem start_after_check_exit_one (env : StartEnv) (r : ExitResult)
    (hr : (start_after_check env).2 = some r) :
    exitCode r = 1 ↔
      (config_load_fails env ∨ unhandled_startup_error env
        ∨ shutdown_in_finally_raises env) := by
  obtain ⟨pl, cfg, mid, kp, sp, run, records, alive, check, sfuel⟩ := env
  cases cfg with
  | error e =>
      simp only [start_after_check, Option.some.injEq] at hr
      subst hr
      simp [exitCode, config_load_fails]
  | ok role =>
      cases mid with
      | some m =>
          simp only [start_after_check, Option.some.injEq] at hr
          subst hr
          simp [exitCode, config_load_fails, unhandled_startup_error]
      | none =>
          rcases hs : (shutdown_server sfuel records alive check sp).2 with _ | e | _
          · cases run <;>
              simp_all [start_after_check, exitCode, config_load_fails,
                unhandled_startup_error, shutdown_in_finally_raises] <;>
              (subst hr; simp)
          · simp only [start_after_check, hs, Option.some.injEq] at hr
            subst hr
            simp [exitCode, config_load_fails, unhandled_startup_error,
              shutdown_in_finally_raises, hs]
          · simp [start_after_check, hs] at hr

/-- Sleep events carry no signal. -/
theorem signaled_replicate_sleep (n : Nat) :
    signaled (List.replicate n SEvent.sleepPoll) = [] := by
  induction n with
  | zero => rfl
  | succ k ih => simp [List.replicate, signaled, ih]

/-- The signalling loop never emits a reap event. -/
theorem reap_not_in_signal_daemons (records : DaemonName → Option Nat)
    (alive : Nat → Bool) (l : List DaemonName) (p : Nat) :
    SEvent.reapChildren p ∉ (signal_daemons records alive l).1 := by
  induction l with
  | nil => simp [signal_daemons]
  | cons d rest ih =>
      cases hr : records d with
      | none => simpa [signal_daemons, shutdown_daemon, hr] using ih
      | some q =>
          by_cases ha : alive q
          · by_cases hd : d = DaemonName.engine
            · subst hd
              simp [signal_daemons, shutdown_daemon, hr, os_kill, ha, ih]
            · simp [signal_daemons, shutdown_daemon, hr, os_kill, ha, hd, ih]
          · simp [signal_daemons, shutdown_daemon, hr, os_kill, ha, ih]

/-! ### Claims -/

/-- C10: if the launched subprocess exits with status 0 within the
2-second grace window, start_daemon returns normally as if the launch
succeeded: no error is raised, no pid record is written (even for the
engine), and no started-with-pid line is logged — only the initial
Starting line. -/
theorem start_daemon_zero_exit_silent (name : DaemonName) (pid : Nat) :
    start_daemon name (.exitsWithin 0) pid =
      .ok ⟨["Starting " ++ dname name], none⟩ := by
  simp [start_daemon]

/-- C6: for every daemon launch, a subprocess still running when the
2-second grace window elapses yields a Started outcome with the pid in
the log line and a pid record written exactly for the engine daemon;
a subprocess exiting within the window with a non-zero status yields a
raised WazuhDaemonError carrying the exit code. -/
theorem start_daemon_outcomes (name : DaemonName) (pid : Nat) (rc : Int)
    (hrc : rc ≠ 0) :
    (∃ r, start_daemon name .stillRunning pid = .ok r
        ∧ r.logs = ["Starting " ++ dname name,
                    "Started " ++ dname name ++ " (pid: " ++ toString pid ++ ")"]
        ∧ (name = DaemonName.engine → r.pid_written = some (DaemonName.engine, pid))
        ∧ (name ≠ DaemonName.engine → r.pid_written = none))
    ∧ start_daemon name (.exitsWithin rc) pid
        = .error ⟨name, "return code " ++ toString rc⟩ := by
  constructor
  · refine ⟨_, rfl, rfl, fun h => ?_, fun h => ?_⟩
    · simp [h]
    · simp [h]
  · simp [start_daemon, hrc]

/-- Witness for C6 at the engine daemon with pid 42 and exit code 1. -/
theorem start_daemon_outcomes_witness :
    (∃ r, start_daemon DaemonName.engine .stillRunning 42 = .ok r
        ∧ r.logs = ["Starting " ++ dname DaemonName.engine,
                    "Started " ++ dname DaemonName.engine ++ " (pid: " ++ toString 42 ++ ")"]
        ∧ (DaemonName.engine = DaemonName.engine →
            r.pid_written = some (DaemonName.engine, 42))
        ∧ (DaemonName.engine ≠ DaemonName.engine → r.pid_written = none))
    ∧ start_daemon DaemonName.engine (.exitsWithin 1) 42
        = .error ⟨DaemonName.engine, "return code " ++ toString (1 : Int)⟩ :=
  start_daemon_outcomes DaemonName.engine 42 1 (by decide)

/-- C1: start_daemons attempts the daemons in the fixed dict order
engine, communications API, management API, and a launch that raises at
position i stops the loop there: the daemons after i are never
launched, and the propagated WazuhDaemonError names the failed
daemon. -/
theorem start_daemons_order_short_circuit
    (debug_mode : Nat) (root : Bool) (lvl : String)
    (beh : DaemonName → LaunchBehavior) (pids : DaemonName → Nat)
    (hlvl : engine_log_level debug_mode = some lvl) :
    ((daemons_list root lvl).map Prod.fst
        = [DaemonName.engine, DaemonName.commsApi, DaemonName.managementApi])
    ∧ (launch_fails beh pids DaemonName.engine = true →
        ∃ e, e.daemon = DaemonName.engine
          ∧ start_daemons debug_mode root beh pids
              = .ran [DaemonName.engine] (some e))
    ∧ (launch_fails beh pids DaemonName.engine = false →
        launch_fails beh pids DaemonName.commsApi = true →
        ∃ e, e.daemon = DaemonName.commsApi
          ∧ start_daemons debug_mode root beh pids
              = .ran [DaemonName.engine, DaemonName.commsApi] (some e))
    ∧ (launch_fails beh pids DaemonName.engine = false →
        launch_fails beh pids DaemonName.commsApi = false →
        launch_fails beh pids DaemonName.managementApi = true →
        ∃ e, e.daemon = DaemonName.managementApi
          ∧ start_daemons debug_mode root beh pids
              = .ran [DaemonName.engine, DaemonName.commsApi,
                      DaemonName.managementApi] (some e)) := by
  have hok : ∀ n, launch_fails beh pids n = false →
      ∃ r, start_daemon n (beh n) (pids n) = .ok r := by
    intro n h
    unfold launch_fails at h
    cases hs : start_daemon n (beh n) (pids n) with
    | error e => rw [hs] at h; simp at h
    | ok r => exact ⟨r, rfl⟩
  refine ⟨rfl, fun hf => ?_, fun h1 hf => ?_, fun h1 h2 hf => ?_⟩
  · obtain ⟨e, he⟩ := (launch_fails_iff beh pids _).mp hf
    exact ⟨e, start_daemon_error_name _ _ _ _ he,
      by simp [start_daemons, hlvl, daemons_list, run_launches, he]⟩
  · obtain ⟨r1, hr1⟩ := hok _ h1
    obtain ⟨e, he⟩ := (launch_fails_iff beh pids _).mp hf
    exact ⟨e, start_daemon_error_name _ _ _ _ he,
      by simp [start_daemons, hlvl, daemons_list, run_launches, hr1, he]⟩
  · obtain ⟨r1, hr1⟩ := hok _ h1
    obtain ⟨r2, hr2⟩ := hok _ h2
    obtain ⟨e, he⟩ := (launch_fails_iff beh pids _).mp hf
    exact ⟨e, start_daemon_error_name _ _ _ _ he,
      by simp [start_daemons, hlvl, daemons_list, run_launches, hr1, hr2, he]⟩

/-- Witness for C1: with the communications API exiting with code 1 and
the other daemons healthy, only engine and comms API are attempted and
the error names the communications API. -/
theorem start_daemons_order_short_circuit_witness :
    launch_fails behComms1 pids7 DaemonName.engine = false
    ∧ launch_fails behComms1 pids7 DaemonName.commsApi = true
    ∧ ∃ e, e.daemon = DaemonName.commsApi
        ∧ start_daemons 0 false behComms1 pids7
            = .ran [DaemonName.engine, DaemonName.commsApi] (some e) :=
  ⟨by decide, by decide,
   (start_daemons_order_short_circuit 0 false "info" behComms1 pids7 rfl).2.2.1
     (by decide) (by decide)⟩

/-- C2 fails on the code: a worker run whose first connection is lost
and that then runs a second loop iteration performs exactly one
readiness probe attempt — the retry iteration constructs its fresh
processes directly after the retry sleep, with no new poll of the
configuration channel (the probe loop sits before `while True`, not
inside it). -/
theorem worker_probe_not_rechecked_counterexample :
    worker_main 1 2 pingsTrue envCancelThenFatal sdNone 10
      = ([WEvent.probeAttempt, WEvent.construct 0, WEvent.startDaemonsCall,
          WEvent.awaitGather 0, WEvent.reconnectLog, WEvent.sleepRetry 10,
          WEvent.construct 1, WEvent.awaitGather 1], some "network error")
    ∧ countW WEvent.probeAttempt
        (worker_main 1 2 pingsTrue envCancelThenFatal sdNone 10).1 = 1
    ∧ countW (WEvent.construct 1)
        (worker_main 1 2 pingsTrue envCancelThenFatal sdNone 10).1 = 1 := by
  decide

/-- C2 amended: the readiness probe runs only once, before the retry
loop; no iteration of the `while True` loop (in particular no reconnect
iteration) performs a probe attempt — every probe event in a worker_main
trace comes from the initial ping_loop phase. -/
theorem worker_probe_only_before_loop :
    (∀ fuel i init env sd retry,
        WEvent.probeAttempt ∉ (worker_loop fuel i init env sd retry).1)
    ∧ (∀ pingFuel loopFuel pings env sd retry, ∃ rest,
        (worker_main pingFuel loopFuel pings env sd retry).1
          = (ping_loop pingFuel pings 0).1 ++ rest
        ∧ WEvent.probeAttempt ∉ rest) := by
  have key : ∀ fuel i init env sd retry,
      WEvent.probeAttempt ∉ (worker_loop fuel i init env sd retry).1 := by
    intro fuel
    induction fuel with
    | zero => intro i init env sd retry; simp [worker_loop]
    | succ f ih =>
        intro i init env sd retry
        unfold worker_loop
        cases init
        · cases hsd : sd i with
          | some e => simp
          | none =>
              cases henv : env i <;> simp <;> exact ih (i + 1) true env sd retry
        · cases henv : env i <;> simp <;> exact ih (i + 1) true env sd retry
  refine ⟨key, fun pingFuel loopFuel pings env sd retry => ?_⟩
  unfold worker_main
  by_cases hp : (ping_loop pingFuel pings 0).2
  · rw [if_pos hp]
    exact ⟨_, rfl, key loopFuel 0 false env sd retry⟩
  · rw [if_neg hp]
    exact ⟨[], by simp, by simp⟩

/-- C4: in the worker retry loop, a CancelledError from awaiting the
gathered tasks is the only condition that retries — it is followed by
the reconnect notice, one sleep of the configured retry interval, and
the next iteration; a non-cancellation exception from the await, or a
WazuhDaemonError from start_daemons, ends the loop at once and
propagates with no retry sleep. -/
theorem worker_retry_only_on_cancel
    (fuel i : Nat) (env : Nat → GatherOutcome) (sd : Nat → Option String)
    (retry : Nat) (m e : String) :
    (env i = .cancelled →
       (worker_loop (fuel + 1) i true env sd retry
          = ([.construct i, .awaitGather i, .reconnectLog, .sleepRetry retry]
               ++ (worker_loop fuel (i + 1) true env sd retry).1,
             (worker_loop fuel (i + 1) true env sd retry).2))
       ∧ (sd i = none →
          worker_loop (fuel + 1) i false env sd retry
            = ([.construct i, .startDaemonsCall, .awaitGather i,
                .reconnectLog, .sleepRetry retry]
                 ++ (worker_loop fuel (i + 1) true env sd retry).1,
               (worker_loop fuel (i + 1) true env sd retry).2)))
    ∧ (env i = .fatal m →
       (worker_loop (fuel + 1) i true env sd retry
          = ([.construct i, .awaitGather i], some m))
       ∧ (sd i = none →
          worker_loop (fuel + 1) i false env sd retry
            = ([.construct i, .startDaemonsCall, .awaitGather i], some m)))
    ∧ (sd i = some e →
       worker_loop (fuel + 1) i false env sd retry
         = ([.construct i, .startDaemonsCall], some e)) := by
  refine ⟨fun hc => ⟨?_, fun hs => ?_⟩, fun hf => ⟨?_, fun hs => ?_⟩, fun hs => ?_⟩
  · conv_lhs => rw [worker_loop]
    simp [hc]
  · conv_lhs => rw [worker_loop]
    simp [hc, hs]
  · conv_lhs => rw [worker_loop]
    simp [hf]
  · conv_lhs => rw [worker_loop]
    simp [hf, hs]
  · conv_lhs => rw [worker_loop]
    simp [hs]

/-- Witness for C4: a cancelled first iteration sleeps once and
continues; the fatal second iteration ends the loop with no sleep. -/
theorem worker_retry_only_on_cancel_witness :
    worker_loop 2 0 false envCancelThenFatal sdNone 10
      = ([WEvent.construct 0, WEvent.startDaemonsCall, WEvent.awaitGather 0,
          WEvent.reconnectLog, WEvent.sleepRetry 10]
           ++ [WEvent.construct 1, WEvent.awaitGather 1], some "network error")
    ∧ worker_loop 1 1 true envCancelThenFatal sdNone 10
      = ([WEvent.construct 1, WEvent.awaitGather 1], some "network error") := by
  have h2 := ((worker_retry_only_on_cancel 0 1 envCancelThenFatal sdNone 10
    "network error" "x").2.1 rfl).1
  have h1 := (worker_retry_only_on_cancel 1 0 envCancelThenFatal sdNone 10
    "network error" "x").1 rfl |>.2 rfl
  rw [h1, h2]
  exact ⟨rfl, rfl⟩

/-- C5: across every execution of the worker retry loop, start_daemons
is called at most once: with the daemons_initialized flag set no
iteration calls it; with the flag clear the next iteration calls it
exactly once and every later iteration runs with the flag set; and a
whole worker_main run performs at most one start_daemons call however
many connection losses occur. -/
theorem worker_start_daemons_at_most_once
    (env : Nat → GatherOutcome) (sd : Nat → Option String) (retry : Nat) :
    (∀ fuel i, countW .startDaemonsCall (worker_loop fuel i true env sd retry).1 = 0)
    ∧ (∀ fuel i, countW .startDaemonsCall
        (worker_loop (fuel + 1) i false env sd retry).1 = 1)
    ∧ (∀ pingFuel loopFuel pings, countW .startDaemonsCall
        (worker_main pingFuel loopFuel pings env sd retry).1 ≤ 1) := by
  have htrue : ∀ fuel i,
      countW .startDaemonsCall (worker_loop fuel i true env sd retry).1 = 0 := by
    intro fuel
    induction fuel with
    | zero => intro i; simp [worker_loop, countW]
    | succ f ih =>
        intro i
        unfold worker_loop
        cases henv : env i <;> simp [countW, countW_append, ih (i + 1)]
  have hping : ∀ pingFuel pings k,
      countW .startDaemonsCall (ping_loop pingFuel pings k).1 = 0 := by
    intro pingFuel
    induction pingFuel with
    | zero => intro pings k; simp [ping_loop, countW]
    | succ f ih =>
        intro pings k
        unfold ping_loop
        by_cases hp : pings k
        · simp [hp, countW]
        · simp [hp, countW, ih]
  have hfalse : ∀ fuel i,
      countW .startDaemonsCall (worker_loop (fuel + 1) i false env sd retry).1 = 1 := by
    intro fuel i
    unfold worker_loop
    cases hsd : sd i with
    | some e => simp [countW]
    | none =>
        cases henv : env i <;>
          simp [countW, countW_append, htrue fuel (i + 1)]
  refine ⟨htrue, hfalse, fun pingFuel loopFuel pings => ?_⟩
  unfold worker_main
  by_cases hp : (ping_loop pingFuel pings 0).2
  · rw [if_pos hp]
    simp only [countW_append, hping]
    cases loopFuel with
    | zero => simp [worker_loop, countW]
    | succ f => simp [hfalse f 0]
  · rw [if_neg hp]
    simp [hping]

/-- C3: shutdown_server signals the daemons in the fixed order engine,
management API, communications API (those with a pid record, when all
recorded pids are alive); whenever it returns, the wait loop observed
check_for_daemons_shutdown become false after n polls that all reported
a live daemon, with one sleep per such poll, and only then do the
child-reaping and server-record deletion appear; and while every poll
keeps reporting a live daemon the call neither returns nor reaps. -/
theorem shutdown_server_order_and_wait
    (fuel : Nat) (records : DaemonName → Option Nat) (alive : Nat → Bool)
    (check : Nat → Bool) (server_pid : Nat) :
    (shutdown_order
        = [DaemonName.engine, DaemonName.managementApi, DaemonName.commsApi])
    ∧ ((∀ d p, records d = some p → alive p = true) →
        signaled (shutdown_server fuel records alive check server_pid).1
          = shutdown_order.filter (fun d => (records d).isSome))
    ∧ ((shutdown_server fuel records alive check server_pid).2 = .returned →
        ∃ n, check n = false ∧ (∀ k, k < n → check k = true)
          ∧ (shutdown_server fuel records alive check server_pid).1
              = (signal_daemons records alive shutdown_order).1
                 ++ [SEvent.waitingLog] ++ List.replicate n SEvent.sleepPoll
                 ++ [SEvent.reapChildren server_pid,
                     SEvent.deleteServerRecord server_pid])
    ∧ ((∀ k, k < fuel → check k = true) →
        (shutdown_server fuel records alive check server_pid).2 ≠ .returned
        ∧ SEvent.reapChildren server_pid
            ∉ (shutdown_server fuel records alive check server_pid).1) := by
  refine ⟨rfl, fun hAlive => ?_, fun hret => ?_, fun hall => ?_⟩
  · obtain ⟨hnone, hsig⟩ := signal_daemons_all_alive records alive shutdown_order hAlive
    rcases hsd : signal_daemons records alive shutdown_order with ⟨evs, err⟩
    rw [hsd] at hnone hsig
    simp only at hnone hsig
    subst hnone
    cases hw : shutdown_wait fuel check 0 with
    | none =>
        simp [shutdown_server, hsd, hw, signaled_append, signaled,
          signaled_replicate_sleep, hsig]
    | some n =>
        simp [shutdown_server, hsd, hw, signaled_append, signaled,
          signaled_replicate_sleep, hsig]
  · rcases hsd : signal_daemons records alive shutdown_order with ⟨evs, err⟩
    cases err with
    | some e => simp [shutdown_server, hsd] at hret
    | none =>
        cases hw : shutdown_wait fuel check 0 with
        | none => simp [shutdown_server, hsd, hw] at hret
        | some n =>
            obtain ⟨-, hfalse, htrue⟩ := shutdown_wait_spec fuel check 0 n hw
            exact ⟨n, hfalse, fun k hk => htrue k (Nat.zero_le k) hk,
              by simp [shutdown_server, hsd, hw]⟩
  · have hw : shutdown_wait fuel check 0 = none :=
      shutdown_wait_none fuel check 0 (fun j h0 hj => hall j (by omega))
    rcases hsd : signal_daemons records alive shutdown_order with ⟨evs, err⟩
    have hevs : evs = (signal_daemons records alive shutdown_order).1 := by
      rw [hsd]
    cases err with
    | some e =>
        refine ⟨by simp [shutdown_server, hsd], ?_⟩
        simp only [shutdown_server, hsd]
        rw [hevs]
        exact reap_not_in_signal_daemons records alive shutdown_order server_pid
    | none =>
        refine ⟨by simp [shutdown_server, hsd, hw], ?_⟩
        simp only [shutdown_server, hsd, hw]
        have h1 := reap_not_in_signal_daemons records alive shutdown_order server_pid
        rw [← hevs] at h1
        simp [List.mem_append, List.mem_replicate, h1]

/-- Witness for C3: with only the engine recorded (pid 4, alive) and
two polls reporting live daemons, shutdown signals the engine, sleeps
twice and then reaps; with a poll that never turns false it never
reaches the reap step. -/
theorem shutdown_server_order_and_wait_witness :
    (signaled (shutdown_server 5 recordsEngine4 alive4 check2 9).1
       = shutdown_order.filter (fun d => (recordsEngine4 d).isSome))
    ∧ (∃ n, check2 n = false ∧ (∀ k, k < n → check2 k = true)
        ∧ (shutdown_server 5 recordsEngine4 alive4 check2 9).1
            = (signal_daemons recordsEngine4 alive4 shutdown_order).1
               ++ [SEvent.waitingLog] ++ List.replicate n SEvent.sleepPoll
               ++ [SEvent.reapChildren 9, SEvent.deleteServerRecord 9])
    ∧ ((shutdown_server 3 recordsEngine4 alive4 checkTrue 9).2 ≠ .returned
        ∧ SEvent.reapChildren 9
            ∉ (shutdown_server 3 recordsEngine4 alive4 checkTrue 9).1) := by
  have hAlive : ∀ d p, recordsEngine4 d = some p → alive4 p = true := by
    intro d p hp
    cases d <;> simp [recordsEngine4] at hp
    rw [← hp]
    decide
  refine ⟨?_, ?_, ?_⟩
  · exact (shutdown_server_order_and_wait 5 recordsEngine4 alive4 check2 9).2.1 hAlive
  · exact (shutdown_server_order_and_wait 5 recordsEngine4 alive4 check2 9).2.2.1
      (by decide)
  · exact (shutdown_server_order_and_wait 3 recordsEngine4 alive4 checkTrue 9).2.2.2
      (by decide)

/-- C7: whenever start() reaches its run phase (the single-instance
check passed, the configuration loaded and no preparation statement
raised), shutdown_server is called exactly once, whatever the run
outcome: normal return, operator interrupt, memory error, a declared
WazuhDaemonError, any other handled exception, or an exception that
escapes the handlers — the finally clause makes the call in every
case. -/
theorem start_run_phase_shutdown_once (env : StartEnv)
    (h : reaches_run_phase env) :
    countT (.shutdownServerCall env.self_pid) (start_model env).1 = 1 := by
  obtain ⟨h1, ⟨role, hc⟩, h3⟩ := h
  obtain ⟨pl, cfg, mid, kp, sp, run, records, alive, check, sfuel⟩ := env
  simp only at h1 h3 hc ⊢
  subst h3
  subst hc
  cases pl with
  | stopIteration =>
      cases role <;> cases kp <;> cases run <;>
        simp [start_model, start_after_check, run_phase_events, countT,
          countT_append, countT_shutdown_call_map]
  | found p =>
      have hp : p = 0 := h1
      subst hp
      cases role <;> cases kp <;> cases run <;>
        simp [start_model, start_after_check, run_phase_events, countT,
          countT_append, countT_shutdown_call_map]

/-- Witness for C7 on a worker environment whose run phase raises an
unhandled exception. -/
theorem start_run_phase_shutdown_once_witness :
    countT (TEvent.shutdownServerCall 5) (start_model envRun5).1 = 1 :=
  start_run_phase_shutdown_once envRun5 ⟨True.intro, ⟨NodeType.worker, rfl⟩, rfl⟩

/-- C8 fails on the code: invoking stop when no supervisor process is
running but a stale server pid record remains makes the final
os.kill raise ProcessLookupError, which nothing catches — the process
exits with code 1, not 0, in a case that is none of the three start()
failure conditions. -/
theorem stop_stale_server_record_exit_code :
    (stop_model (.found 9) recordsNone aliveFalse checkFalse 3).2
      = some (ExitResult.uncaught "ProcessLookupError")
    ∧ exitCode (ExitResult.uncaught "ProcessLookupError") = 1 := by
  decide

/-- C8 amended: whenever start() terminates, its exit code is 1 exactly
on an already-running instance, a configuration load failure, an
unhandled startup error, or a raise from the finally-clause
shutdown_server itself (a stale daemon record surviving to shutdown
time makes the SIGTERM to its dead pid raise ProcessLookupError, which
escapes start()); every other terminating start() case exits 0.  stop
with no pid record logs not-running and exits 0; but stop with a stale
server record (dead pid, no daemon records) exits 1 through an uncaught
ProcessLookupError. -/
theorem exit_code_one_amended :
    (∀ (env : StartEnv) (r : ExitResult), (start_model env).2 = some r →
        (exitCode r = 1 ↔
          (already_running env ∨ config_load_fails env
            ∨ unhandled_startup_error env ∨ shutdown_in_finally_raises env)))
    ∧ (∀ records alive check fuel,
        stop_model .stopIteration records alive check fuel
          = ([SEvent.logNotRunning], some (ExitResult.exited 0)))
    ∧ (∀ spid (alive : Nat → Bool) (check : Nat → Bool) fuel,
        alive spid = false → check 0 = false → 0 < fuel →
        (stop_model (.found spid) (fun _ => none) alive check fuel).2
          = some (ExitResult.uncaught "ProcessLookupError")) := by
  refine ⟨fun env r hr => ?_, fun records alive check fuel => rfl,
    fun spid alive check fuel ha hc hf => ?_⟩
  · obtain ⟨pl, cfg, mid, kp, sp, run, records, alive, check, sfuel⟩ := env
    cases pl with
    | found p =>
        by_cases hp : p = 0
        · subst hp
          simp only [start_model, ne_eq, not_true_eq_false, if_false] at hr
          rw [start_after_check_exit_one _ r hr]
          simp [already_running]
        · simp [start_model, hp] at hr
          subst hr
          simp [exitCode, already_running, hp]
    | stopIteration =>
        simp only [start_model] at hr
        rw [start_after_check_exit_one _ r hr]
        simp [already_running]
  · cases fuel with
    | zero => omega
    | succ f =>
        simp [stop_model, shutdown_server, signal_daemons, shutdown_daemon,
          shutdown_order, shutdown_wait, hc, os_kill, ha]

/-- Witness for C8 amended at concrete environments: a run interrupted
by the operator whose finally-clause shutdown hits a stale engine
record exits 1, a stop with no record exits 0, and a stop with a stale
server record exits 1. -/
theorem exit_code_one_amended_witness :
    (start_model envShutdownRaise).2
        = some (ExitResult.uncaught "ProcessLookupError")
    ∧ (exitCode (ExitResult.uncaught "ProcessLookupError") = 1 ↔
        (already_running envShutdownRaise ∨ config_load_fails envShutdownRaise
          ∨ unhandled_startup_error envShutdownRaise
          ∨ shutdown_in_finally_raises envShutdownRaise))
    ∧ stop_model .stopIteration recordsNone aliveFalse checkFalse 3
        = ([SEvent.logNotRunning], some (ExitResult.exited 0))
    ∧ (stop_model (.found 9) (fun _ => none) aliveFalse checkFalse 3).2
        = some (ExitResult.uncaught "ProcessLookupError") :=
  ⟨by decide,
   exit_code_one_amended.1 envShutdownRaise
     (ExitResult.uncaught "ProcessLookupError") (by decide),
   exit_code_one_amended.2.1 recordsNone aliveFalse checkFalse 3,
   exit_code_one_amended.2.2 9 aliveFalse checkFalse 3 rfl rfl (by decide)⟩

/-- C9 fails on the code: with a stale engine pid record (pid 4 already
exited), stop does not degrade to informational output — the SIGTERM
attempt in shutdown_daemon raises ProcessLookupError and the exception
propagates out of stop uncaught. -/
theorem stop_stale_engine_record_raises :
    stop_model (.found 9) recordsEngine4 aliveFalse checkFalse 3
      = ([SEvent.logShuttingDown DaemonName.engine 4],
         some (ExitResult.uncaught "ProcessLookupError")) := by
  decide

/-- C9 amended: status never raises — it is a pure read producing one
line per daemon in a fixed order; stop with no server record degrades
to a warning and exit 0; but a termination signal to a pid that has
already exited raises ProcessLookupError rather than failing silently,
and with a stale engine record that exception propagates out of
stop. -/
theorem stop_status_degrade_amended :
    (∀ running : DaemonName → Bool, status_model running
        = [dname DaemonName.server ++ " is "
             ++ (if running DaemonName.server then "running" else "not running")
             ++ "...",
           dname DaemonName.commsApi ++ " is "
             ++ (if running DaemonName.commsApi then "running" else "not running")
             ++ "...",
           dname DaemonName.managementApi ++ " is "
             ++ (if running DaemonName.managementApi then "running" else "not running")
             ++ "...",
           dname DaemonName.engine ++ " is "
             ++ (if running DaemonName.engine then "running" else "not running")
             ++ "..."])
    ∧ (∀ records alive check fuel,
        stop_model .stopIteration records alive check fuel
          = ([SEvent.logNotRunning], some (ExitResult.exited 0)))
    ∧ (∀ alive : Nat → Bool, ∀ pid, alive pid = false →
        os_kill alive pid = .error "ProcessLookupError")
    ∧ (∀ spid (records : DaemonName → Option Nat) (alive : Nat → Bool)
          check fuel p,
        records DaemonName.engine = some p → alive p = false →
        (stop_model (.found spid) records alive check fuel).2
          = some (ExitResult.uncaught "ProcessLookupError")) := by
  refine ⟨fun running => rfl, fun records alive check fuel => rfl,
    fun alive pid ha => by simp [os_kill, ha],
    fun spid records alive check fuel p hrec ha => ?_⟩
  simp [stop_model, shutdown_server, signal_daemons, shutdown_daemon,
    shutdown_order, hrec, os_kill, ha]

/-- Witness for C9 amended at concrete environments. -/
theorem stop_status_degrade_amended_witness :
    status_model runningNone
      = ["wazuh-server is not running...", "wazuh-comms-apid is not running...",
         "wazuh-apid is not running...", "wazuh-engined is not running..."]
    ∧ stop_model .stopIteration recordsEngine4 alive4 check2 3
        = ([SEvent.logNotRunning], some (ExitResult.exited 0))
    ∧ os_kill aliveFalse 4 = .error "ProcessLookupError"
    ∧ (stop_model (.found 7) recordsEngine4 aliveFalse checkFalse 2).2
        = some (ExitResult.uncaught "ProcessLookupError") :=
  ⟨stop_status_degrade_amended.1 runningNone,
   stop_status_degrade_amended.2.1 recordsEngine4 alive4 check2 3,
   stop_status_degrade_amended.2.2.1 aliveFalse 4 rfl,
   stop_status_degrade_amended.2.2.2 7 recordsEngine4 aliveFalse checkFalse 2 4 rfl rfl⟩

end WazuhServer
